import Mathlib

/-!
Shallow embedding of the GPIO interrupt / event-routing core of the
ESP32_Library repository (src/src/gpio.cpp, src/include/gpio.h).

Conventions of the embedding:
* `esp_err_t` is `Int`, with `ESP_OK = 0` (`espOk`); error codes are any
  nonzero value and are supplied by the environment where a platform call
  can fail.
* Opaque platform handles (`QueueHandle_t`, `esp_event_loop_handle_t`,
  `esp_event_handler_t`) are `Option Nat`: `none` stands for `nullptr`.
* Each operation is a pure function from the explicit state it reads to the
  state it writes, together with the trace of platform calls it performs
  (hardware calls for `enableInterrupt`, event-loop registration calls for
  the routing setters, posts for the ISR dispatcher).
* The statics of `GpioInput` (`_interrupt_service_installed`) are threaded
  as an explicit `Bool`.
* In the C++ source, the member `_interrupt_args._pin` has no default
  member initializer and is never assigned, so it holds an indeterminate
  value; `initInput` therefore takes that field's (arbitrary) initial value
  as an explicit parameter `uninitArgsPin`.
-/

namespace ESP32Gpio

/-- `ESP_OK`. -/
def espOk : Int := 0

/-- `gpio_int_type_t` of the ESP-IDF driver. -/
inductive GpioIntType
  | disable
  | posedge
  | negedge
  | anyedge
  | lowLevel
  | highLevel
  deriving DecidableEq, Repr

/-- Event bases. The library declares the single base `INPUT_EVENTS`. -/
inductive EventBase
  | inputEvents
  deriving DecidableEq, Repr

/-- The per-pin routing record `GpioInput::interrupt_args` (gpio.h).
`type_tag` has default member initializer `0x47504941`; the three sink flags
default to `false`; the two handles default to `nullptr`; `pin` has no
initializer in the source. -/
structure InterruptArgs where
  type_tag : Nat
  event_handler_set : Bool
  custom_event_handler_set : Bool
  queue_enabled : Bool
  pin : Nat
  custom_event_loop_handle : Option Nat
  queue_handle : Option Nat
  deriving DecidableEq, Repr

/-- The per-object state of a `GpioInput`: the `GpioBase` members `_pin` and
`_active_low`, the member `_event_handle`, and the routing record
`_interrupt_args`. -/
structure GpioInputState where
  pin : Nat
  active_low : Bool
  event_handle : Option Nat
  interrupt_args : InterruptArgs
  deriving DecidableEq, Repr

/-- A post performed from interrupt context by the dispatcher: either
`xQueueSendFromISR(queue, &pin, NULL)`, or
`esp_event_isr_post_to(loop, INPUT_EVENTS, pin, nullptr, 0, nullptr)`, or
`esp_event_isr_post(INPUT_EVENTS, pin, nullptr, 0, nullptr)`. -/
inductive Post
  | toQueue (queue : Option Nat) (payload : Nat)
  | toCustomLoop (loop : Option Nat) (category : EventBase) (code : Nat)
  | toDefaultLoop (category : EventBase) (code : Nat)
  deriving DecidableEq, Repr

/-- The payload / event code a post carries. -/
def postCode : Post → Nat
  | Post.toQueue _ payload => payload
  | Post.toCustomLoop _ _ code => code
  | Post.toDefaultLoop _ code => code

/-- `GpioInput::gpio_isr_callback` (gpio.cpp lines 11-30), as the list of
posts it performs, in order. It casts its argument to `interrupt_args`,
aborts unless `type_tag == 0x47504941`, and otherwise posts through the
first enabled sink: queue, else custom event loop, else default event
loop, else nothing. -/
def gpio_isr_callback (args : InterruptArgs) : List Post :=
  if args.type_tag ≠ 0x47504941 then
    []
  else
    let pin := args.pin
    if args.queue_enabled then
      [Post.toQueue args.queue_handle pin]
    else if args.custom_event_handler_set then
      [Post.toCustomLoop args.custom_event_loop_handle EventBase.inputEvents pin]
    else if args.event_handler_set then
      [Post.toDefaultLoop EventBase.inputEvents pin]
    else
      []

/-- `GpioInput::_init` (gpio.cpp lines 41-55), restricted to the member
writes: `_active_low = activeLow; _pin = pin`. The nested `_interrupt_args`
is default-initialized, except that its `_pin` field has no initializer in
the source and starts at the indeterminate value `uninitArgsPin`. -/
def initInput (pin : Nat) (activeLow : Bool) (uninitArgsPin : Nat) : GpioInputState :=
  { pin := pin
    active_low := activeLow
    event_handle := none
    interrupt_args :=
      { type_tag := 0x47504941
        event_handler_set := false
        custom_event_handler_set := false
        queue_enabled := false
        pin := uninitArgsPin
        custom_event_loop_handle := none
        queue_handle := none } }

/-- A normal-context event-loop (un)registration call performed by the
routing setters and by `_clearEventHandlers`. -/
inductive RoutingCall
  | unregisterWith (loop : Option Nat) (category : EventBase) (eventId : Nat)
      (handler : Option Nat)
  | instanceUnregister (category : EventBase) (eventId : Nat)
  | instanceRegister (category : EventBase) (eventId : Nat) (handler : Option Nat)
  | instanceRegisterWith (loop : Option Nat) (category : EventBase) (eventId : Nat)
      (handler : Option Nat)
  deriving DecidableEq, Repr

/-- Result of `_clearEventHandlers` and of the two `setEventHandler`
overloads: the returned status, the updated object state and the trace of
event-loop calls made. -/
structure SetterResult where
  status : Int
  state : GpioInputState
  calls : List RoutingCall
  deriving DecidableEq, Repr

/-- `GpioInput::_clearEventHandlers` (gpio.cpp lines 271-286). If
`_custom_event_handler_set`, it calls `esp_event_handler_unregister_with`
on the stored custom loop and clears that flag; else if
`_event_handler_set`, it calls `esp_event_handler_instance_unregister`
(default loop) and clears that flag. In all cases it then nulls
`_queue_handle` and clears `_queue_enabled`. The unregister results are
discarded: the function always returns its initial `ESP_OK`. -/
def clearEventHandlers (s : GpioInputState) : SetterResult :=
  let status := espOk
  let step :
      InterruptArgs × List RoutingCall :=
    if s.interrupt_args.custom_event_handler_set then
      ({ s.interrupt_args with custom_event_handler_set := false },
        [RoutingCall.unregisterWith s.interrupt_args.custom_event_loop_handle
          EventBase.inputEvents s.interrupt_args.pin s.event_handle])
    else if s.interrupt_args.event_handler_set then
      ({ s.interrupt_args with event_handler_set := false },
        [RoutingCall.instanceUnregister EventBase.inputEvents s.interrupt_args.pin])
    else
      (s.interrupt_args, [])
  let a := { step.1 with queue_handle := none, queue_enabled := false }
  { status := status, state := { s with interrupt_args := a }, calls := step.2 }

/-- `GpioInput::setEventHandler(esp_event_handler_t)` (gpio.cpp lines
225-241). Clears the handlers (discarding that status), registers the
handler on the default loop keyed by `_interrupt_args._pin`, and on
`ESP_OK` sets `_event_handler_set`. `registerStatus` is the environment's
result for `esp_event_handler_instance_register`. -/
def setEventHandlerDefault (registerStatus : Int) (s : GpioInputState)
    (handler : Option Nat) : SetterResult :=
  let c := clearEventHandlers s
  let s₁ := c.state
  let status := registerStatus
  let calls := c.calls ++
    [RoutingCall.instanceRegister EventBase.inputEvents s₁.interrupt_args.pin handler]
  let s₂ :=
    if status = espOk then
      { s₁ with interrupt_args := { s₁.interrupt_args with event_handler_set := true } }
    else s₁
  { status := status, state := s₂, calls := calls }

/-- `GpioInput::setEventHandler(esp_event_loop_handle_t, esp_event_handler_t)`
(gpio.cpp lines 243-261). Clears the handlers, registers the handler on the
caller's loop via `esp_event_handler_instance_register_with`, and on
`ESP_OK` stores `_event_handle` and `_custom_event_loop_handle` and sets
`_event_handler_set` — the source sets `_event_handler_set`, not
`_custom_event_handler_set`, at line 255. -/
def setEventHandlerCustom (registerStatus : Int) (s : GpioInputState)
    (loop : Option Nat) (handler : Option Nat) : SetterResult :=
  let c := clearEventHandlers s
  let s₁ := c.state
  let status := registerStatus
  let calls := c.calls ++
    [RoutingCall.instanceRegisterWith loop EventBase.inputEvents
      s₁.interrupt_args.pin handler]
  let s₂ :=
    if status = espOk then
      { s₁ with
          event_handle := handler
          interrupt_args :=
            { s₁.interrupt_args with
                custom_event_loop_handle := loop
                event_handler_set := true } }
    else s₁
  { status := status, state := s₂, calls := calls }

/-- `GpioInput::setQueueHandle` (gpio.cpp lines 263-269). Clears the
handlers, then stores the queue handle and sets `_queue_enabled`. Returns
`void` in the source, so only the state and the call trace. -/
def setQueueHandle (s : GpioInputState) (q : Option Nat) :
    GpioInputState × List RoutingCall :=
  let c := clearEventHandlers s
  ({ c.state with
      interrupt_args :=
        { c.state.interrupt_args with queue_handle := q, queue_enabled := true } },
    c.calls)

/-- A `void *` argument as the source produces it: `(void *)_pin` casts the
pin number itself to a pointer, `&_interrupt_args` would be the address of
the routing record. -/
inductive VoidPtr
  | ofPin (pin : Nat)
  | ofArgs (args : InterruptArgs)
  | null
  deriving DecidableEq, Repr

/-- A hardware/driver call performed by `enableInterrupt`, with the status
the platform returned for it. -/
inductive HwCall
  | installIsrService (flags : Int) (result : Int)
  | setIntrType (pin : Nat) (intrType : GpioIntType) (result : Int)
  | isrHandlerAdd (pin : Nat) (arg : VoidPtr) (result : Int)
  deriving DecidableEq, Repr

/-- The `if (_active_low) switch (int_type)` block of
`GpioInput::enableInterrupt` (gpio.cpp lines 182-204): for an active-low
pin POSEDGE and NEGEDGE swap, LOW_LEVEL and HIGH_LEVEL swap, everything
else passes through; for a non-active-low pin the type is unchanged. -/
def applyActiveLowInversion (active_low : Bool) (int_type : GpioIntType) : GpioIntType :=
  if active_low then
    match int_type with
    | GpioIntType.posedge => GpioIntType.negedge
    | GpioIntType.negedge => GpioIntType.posedge
    | GpioIntType.lowLevel => GpioIntType.highLevel
    | GpioIntType.highLevel => GpioIntType.lowLevel
    | other => other
  else int_type

/-- The statuses the platform will return to `enableInterrupt` for
`gpio_install_isr_service`, `gpio_set_intr_type` and
`gpio_isr_handler_add`, should each be reached. -/
structure PlatformEnv where
  installStatus : Int
  setIntrStatus : Int
  isrAddStatus : Int
  deriving DecidableEq, Repr

/-- Result of `enableInterrupt`: returned status, the (possibly updated)
process-wide `_interrupt_service_installed` flag, the (unchanged) object
state, and the trace of driver calls made. -/
structure EnableResult where
  status : Int
  installed : Bool
  state : GpioInputState
  calls : List HwCall
  deriving DecidableEq, Repr

/-- `GpioInput::enableInterrupt` (gpio.cpp lines 179-223). Inverts the
trigger for active-low pins; if the service flag is unset, calls
`gpio_install_isr_service(0)` and sets the flag on `ESP_OK`; while the
status is `ESP_OK` it then calls `gpio_set_intr_type(_pin, int_type)` and
`gpio_isr_handler_add(_pin, gpio_isr_callback, (void *)_pin)` — the
callback argument is the pin number cast to a pointer (line 219). The
method writes no members of the object. -/
def enableInterrupt (env : PlatformEnv) (installed : Bool)
    (s : GpioInputState) (int_type : GpioIntType) : EnableResult :=
  let ty := applyActiveLowInversion s.active_low int_type
  let status := espOk
  let step1 : Int × Bool × List HwCall :=
    if !installed then
      (env.installStatus,
        if env.installStatus = espOk then true else installed,
        [HwCall.installIsrService 0 env.installStatus])
    else
      (status, installed, [])
  let step2 : Int × List HwCall :=
    if step1.1 = espOk then
      (env.setIntrStatus, step1.2.2 ++ [HwCall.setIntrType s.pin ty env.setIntrStatus])
    else (step1.1, step1.2.2)
  let step3 : Int × List HwCall :=
    if step2.1 = espOk then
      (env.isrAddStatus,
        step2.2 ++ [HwCall.isrHandlerAdd s.pin (VoidPtr.ofPin s.pin) env.isrAddStatus])
    else (step2.1, step2.2)
  { status := step3.1, installed := step1.2.1, state := s, calls := step3.2 }

/-- Run a sequence of `enableInterrupt` calls (possibly on different pins),
threading the process-wide installed flag; returns the final flag and each
call's driver trace. -/
def runEnableSeq (installed : Bool) :
    List (PlatformEnv × GpioInputState × GpioIntType) → Bool × List (List HwCall)
  | [] => (installed, [])
  | (env, s, t) :: rest =>
    let r := enableInterrupt env installed s t
    let rec' := runEnableSeq r.installed rest
    (rec'.1, r.calls :: rec'.2)

/-- Whether a driver call is a `gpio_install_isr_service` call that
returned `ESP_OK`. -/
def isSuccessfulInstall : HwCall → Bool
  | HwCall.installIsrService _ result => decide (result = espOk)
  | _ => false

/-- Whether a trace holds any `gpio_install_isr_service` call. -/
def hasInstallCall (calls : List HwCall) : Bool :=
  calls.any fun c =>
    match c with
    | HwCall.installIsrService _ _ => true
    | _ => false

/-- Number of successful shared-service installs across a list of traces. -/
def countSuccessfulInstalls : List (List HwCall) → Nat
  | [] => 0
  | calls :: rest =>
    (calls.filter isSuccessfulInstall).length + countSuccessfulInstalls rest

/-- How many of the three sink flags of a routing record are set. -/
def sinkCount (a : InterruptArgs) : Nat :=
  (if a.queue_enabled then 1 else 0) +
    (if a.custom_event_handler_set then 1 else 0) +
    (if a.event_handler_set then 1 else 0)

/-! ### GpioOutput (gpio.cpp lines 300-412) -/

/-- `GPIO::GpioLevel`. -/
inductive GpioLevel
  | low
  | high
  deriving DecidableEq, Repr

/-- `static_cast<int>(level)` on a `GpioLevel`. -/
def levelToInt : GpioLevel → Int
  | GpioLevel.low => 0
  | GpioLevel.high => 1

/-- State of a `GpioOutput`: `_pin`, `_active_low` and the remembered
`_level`. -/
structure GpioOutputState where
  pin : Nat
  active_low : Bool
  level : GpioLevel
  deriving DecidableEq, Repr

/-- `GpioOutput::_init` member writes: `_active_low = activeLow; _pin = pin`
(`_level` keeps its in-class initializer `GpioLevel::LOW`). -/
def initOutput (pin : Nat) (activeLow : Bool) : GpioOutputState :=
  { pin := pin, active_low := activeLow, level := GpioLevel.low }

/-- `GpioOutput::setLevel` (gpio.cpp lines 409-412): stores the level and
calls `gpio_set_level(_pin, _active_low ? (int)(level == LOW) : (int)level)`.
Returns the new state and the `(pin, driven physical level)` of that call. -/
def setLevel (s : GpioOutputState) (level : GpioLevel) : GpioOutputState × Nat × Int :=
  let s₁ := { s with level := level }
  (s₁, s₁.pin,
    if s₁.active_low then (if level = GpioLevel.low then 1 else 0) else levelToInt level)

/-- `GpioOutput::toggle` (gpio.cpp lines 395-398): flips the remembered
level and calls `gpio_set_level` with the same active-low resolution. -/
def toggle (s : GpioOutputState) : GpioOutputState × Nat × Int :=
  let newLevel := if s.level = GpioLevel.high then GpioLevel.low else GpioLevel.high
  let s₁ := { s with level := newLevel }
  (s₁, s₁.pin,
    if s₁.active_low then (if newLevel = GpioLevel.low then 1 else 0)
    else levelToInt newLevel)

/-- `GpioOutput::on`: `setLevel(GpioLevel::HIGH)`. -/
def outputOn (s : GpioOutputState) : GpioOutputState × Nat × Int :=
  setLevel s GpioLevel.high

/-- `GpioOutput::off`: `setLevel(GpioLevel::LOW)`. -/
def outputOff (s : GpioOutputState) : GpioOutputState × Nat × Int :=
  setLevel s GpioLevel.low

/-- The flip `toggle` applies to the remembered level. -/
def flipLevel (l : GpioLevel) : GpioLevel :=
  if l = GpioLevel.high then GpioLevel.low else GpioLevel.high

/-- `GpioLevel` as the 0/1 bit used to state the XOR law. -/
def levelBit : GpioLevel → Nat
  | GpioLevel.low => 0
  | GpioLevel.high => 1

/-- A concrete routing record with a valid tag and the queue sink active,
used to evaluate the dispatcher. -/
def c6Args : InterruptArgs :=
  { type_tag := 0x47504941
    event_handler_set := false
    custom_event_handler_set := false
    queue_enabled := true
    pin := 4
    custom_event_loop_handle := none
    queue_handle := some 9 }

/-! ### Theorems -/

/-- C9: for every callback record whose sentinel tag differs from the
expected constant 0x47504941, the dispatcher returns without performing any
post to any queue or event loop. -/
theorem C9_corrupted_tag_no_post (args : InterruptArgs)
    (h : args.type_tag ≠ 0x47504941) : gpio_isr_callback args = [] := by
  simp [gpio_isr_callback, h]

/-- C9 witness: a concrete record with a corrupted tag — and every sink flag
set — produces no post. -/
theorem C9_corrupted_tag_no_post_witness :
    gpio_isr_callback
      { type_tag := 0
        event_handler_set := true
        custom_event_handler_set := true
        queue_enabled := true
        pin := 5
        custom_event_loop_handle := some 7
        queue_handle := some 9 } = [] :=
  C9_corrupted_tag_no_post _ (by decide)

/-- C6: with a valid sentinel tag the dispatcher performs at most one post,
selected queue sink first, then custom event-loop sink, then default
event-loop sink; with no sink active it posts nothing; and every post it
does perform carries the record's pin identifier as payload/event code. -/
theorem C6_dispatch_priority (args : InterruptArgs)
    (h : args.type_tag = 0x47504941) :
    (gpio_isr_callback args).length ≤ 1 ∧
    (args.queue_enabled = true →
      gpio_isr_callback args = [Post.toQueue args.queue_handle args.pin]) ∧
    (args.queue_enabled = false → args.custom_event_handler_set = true →
      gpio_isr_callback args =
        [Post.toCustomLoop args.custom_event_loop_handle EventBase.inputEvents args.pin]) ∧
    (args.queue_enabled = false → args.custom_event_handler_set = false →
      args.event_handler_set = true →
      gpio_isr_callback args = [Post.toDefaultLoop EventBase.inputEvents args.pin]) ∧
    (args.queue_enabled = false → args.custom_event_handler_set = false →
      args.event_handler_set = false → gpio_isr_callback args = []) ∧
    (∀ p ∈ gpio_isr_callback args, postCode p = args.pin) := by
  rcases args with ⟨tag, e, c, q, pin, loop, qh⟩
  simp only [InterruptArgs.type_tag] at h
  subst h
  cases e <;> cases c <;> cases q <;>
    simp [gpio_isr_callback, postCode]

/-- C6 witness: the dispatcher evaluated on a concrete queue-sink record. -/
theorem C6_dispatch_priority_witness :
    (gpio_isr_callback c6Args).length ≤ 1 ∧
    (c6Args.queue_enabled = true →
      gpio_isr_callback c6Args = [Post.toQueue c6Args.queue_handle c6Args.pin]) ∧
    (c6Args.queue_enabled = false → c6Args.custom_event_handler_set = true →
      gpio_isr_callback c6Args =
        [Post.toCustomLoop c6Args.custom_event_loop_handle EventBase.inputEvents c6Args.pin]) ∧
    (c6Args.queue_enabled = false → c6Args.custom_event_handler_set = false →
      c6Args.event_handler_set = true →
      gpio_isr_callback c6Args = [Post.toDefaultLoop EventBase.inputEvents c6Args.pin]) ∧
    (c6Args.queue_enabled = false → c6Args.custom_event_handler_set = false →
      c6Args.event_handler_set = false → gpio_isr_callback c6Args = []) ∧
    (∀ p ∈ gpio_isr_callback c6Args, postCode p = c6Args.pin) :=
  C6_dispatch_priority c6Args rfl

/-- C10: setLevel stores the logical level and drives the physical pin to
the level XOR the active-low flag; toggle is setLevel of the flipped
remembered level, so two toggles restore both the state and the driven
level; on and off are setLevel HIGH and setLevel LOW. -/
theorem C10_output_level_algebra (s : GpioOutputState) (l : GpioLevel) :
    (setLevel s l).1.level = l ∧
    (setLevel s l).2.2 =
      Int.ofNat (Nat.xor (levelBit l) (if s.active_low then 1 else 0)) ∧
    toggle s = setLevel s (flipLevel s.level) ∧
    (toggle (toggle s).1).1 = s ∧
    (toggle (toggle s).1).2 = (setLevel s s.level).2 ∧
    outputOn s = setLevel s GpioLevel.high ∧
    outputOff s = setLevel s GpioLevel.low := by
  rcases s with ⟨p, al, lv⟩
  cases al <;> cases lv <;> cases l <;>
    simp [setLevel, toggle, flipLevel, levelBit, levelToInt, outputOn, outputOff] <;>
    decide

/-- C1, code bug: a fully successful enableInterrupt on pin 4 registers the
dispatcher with the pin number cast to a pointer (`(void *)_pin`, gpio.cpp
line 219) — an argument that is not a reference to the pin's routing
record, for any value of that record. -/
theorem C1_callback_arg_is_pin_not_config :
    (enableInterrupt ⟨espOk, espOk, espOk⟩ false (initInput 4 false 4)
        GpioIntType.posedge).status = espOk ∧
    (enableInterrupt ⟨espOk, espOk, espOk⟩ false (initInput 4 false 4)
        GpioIntType.posedge).calls =
      [HwCall.installIsrService 0 espOk,
        HwCall.setIntrType 4 GpioIntType.posedge espOk,
        HwCall.isrHandlerAdd 4 (VoidPtr.ofPin 4) espOk] ∧
    (∀ r : InterruptArgs, VoidPtr.ofPin 4 ≠ VoidPtr.ofArgs r) := by
  refine ⟨by decide, by decide, ?_⟩
  intro r hr
  exact VoidPtr.noConfusion hr

/-- C2, code bug: after a successful custom-loop setEventHandler (loop 7,
handler 3) on pin 5 — which sets `_event_handler_set` instead of
`_custom_event_handler_set` (gpio.cpp line 255) — a firing interrupt posts
one event to the default loop, not to the custom loop. -/
theorem C2_custom_sink_posts_to_default_loop :
    (setEventHandlerCustom espOk (initInput 5 false 5) (some 7) (some 3)).status =
      espOk ∧
    (setEventHandlerCustom espOk (initInput 5 false 5) (some 7)
        (some 3)).state.interrupt_args.custom_event_handler_set = false ∧
    gpio_isr_callback
        (setEventHandlerCustom espOk (initInput 5 false 5) (some 7)
          (some 3)).state.interrupt_args =
      [Post.toDefaultLoop EventBase.inputEvents 5] := by
  refine ⟨?_, ?_, ?_⟩ <;> decide

/-- C3, code bug: a handler registered on custom loop 7 via
`esp_event_handler_instance_register_with` is retired by
`esp_event_handler_instance_unregister` — a default-loop call — because
only `_event_handler_set` was flagged, so the unregistration does not go to
the loop the handler was registered on. -/
theorem C3_retire_unregisters_wrong_loop :
    (setEventHandlerCustom espOk (initInput 5 false 5) (some 7) (some 3)).calls =
      [RoutingCall.instanceRegisterWith (some 7) EventBase.inputEvents 5 (some 3)] ∧
    (setQueueHandle
        (setEventHandlerCustom espOk (initInput 5 false 5) (some 7) (some 3)).state
        (some 9)).2 =
      [RoutingCall.instanceUnregister EventBase.inputEvents 5] := by
  constructor <;> decide

/-- C4 counterexample: on a pin whose queue sink is active, a routing setter
whose event-loop registration fails leaves zero sinks active, refuting
"never zero". -/
theorem C4_counterexample_zero_sinks_after_setter :
    sinkCount (setQueueHandle (initInput 5 false 5) (some 9)).1.interrupt_args = 1 ∧
    sinkCount
        (setEventHandlerDefault (-1) (setQueueHandle (initInput 5 false 5) (some 9)).1
          (some 3)).state.interrupt_args = 0 := by
  constructor <;> decide

/-- C5 counterexample: a routing setter that fails does not leave a routed
pin in its prior state — the previously active queue sink is retired and
the pin ends unrouted. -/
theorem C5_counterexample_failed_setter_changes_state :
    (setQueueHandle (initInput 5 false 5) (some 9)).1.interrupt_args.queue_enabled =
      true ∧
    (setQueueHandle (initInput 5 false 5) (some 9)).1.interrupt_args.queue_handle =
      some 9 ∧
    (setEventHandlerDefault (-1) (setQueueHandle (initInput 5 false 5) (some 9)).1
        (some 3)).status ≠ espOk ∧
    (setEventHandlerDefault (-1) (setQueueHandle (initInput 5 false 5) (some 9)).1
        (some 3)).state.interrupt_args.queue_enabled = false ∧
    (setEventHandlerDefault (-1) (setQueueHandle (initInput 5 false 5) (some 9)).1
        (some 3)).state.interrupt_args.queue_handle = none := by
  refine ⟨?_, ?_, ?_, ?_, ?_⟩ <;> decide

/-- Helper: `_clearEventHandlers` on a state with at most one sink flag set
leaves all three sink flags clear and the queue handle null. -/
theorem clear_zeros_of_le_one (s : GpioInputState)
    (h : sinkCount s.interrupt_args ≤ 1) :
    (clearEventHandlers s).state.interrupt_args.event_handler_set = false ∧
    (clearEventHandlers s).state.interrupt_args.custom_event_handler_set = false ∧
    (clearEventHandlers s).state.interrupt_args.queue_enabled = false ∧
    (clearEventHandlers s).state.interrupt_args.queue_handle = none := by
  rcases s with ⟨p, al, eh, ⟨tag, e, c, q, apin, loop, qh⟩⟩
  cases e <;> cases c <;> cases q <;>
    simp_all [sinkCount, clearEventHandlers]

/-- C4 (amended): on a pin with exactly one sink active, setQueueHandle and
every succeeding setEventHandler leave exactly one sink active; a failing
setEventHandler leaves zero; no setter ever leaves two or more. -/
theorem C4_exactly_one_sink_after_setter (s : GpioInputState)
    (h : sinkCount s.interrupt_args = 1) :
    (∀ q, sinkCount (setQueueHandle s q).1.interrupt_args = 1) ∧
    (∀ rs hd, rs = espOk →
      sinkCount (setEventHandlerDefault rs s hd).state.interrupt_args = 1) ∧
    (∀ rs l hd, rs = espOk →
      sinkCount (setEventHandlerCustom rs s l hd).state.interrupt_args = 1) ∧
    (∀ rs hd, sinkCount (setEventHandlerDefault rs s hd).state.interrupt_args ≤ 1) ∧
    (∀ rs l hd, sinkCount (setEventHandlerCustom rs s l hd).state.interrupt_args ≤ 1) ∧
    (∀ rs hd, rs ≠ espOk →
      sinkCount (setEventHandlerDefault rs s hd).state.interrupt_args = 0) ∧
    (∀ rs l hd, rs ≠ espOk →
      sinkCount (setEventHandlerCustom rs s l hd).state.interrupt_args = 0) := by
  obtain ⟨he, hc, hq, hqh⟩ := clear_zeros_of_le_one s (le_of_eq h)
  refine ⟨?_, ?_, ?_, ?_, ?_, ?_, ?_⟩
  · intro q
    simp [setQueueHandle, sinkCount, he, hc]
  · intro rs hd hrs
    simp [setEventHandlerDefault, sinkCount, hrs, he, hc, hq]
  · intro rs l hd hrs
    simp [setEventHandlerCustom, sinkCount, hrs, he, hc, hq]
  · intro rs hd
    by_cases hrs : rs = espOk <;>
      simp [setEventHandlerDefault, sinkCount, hrs, he, hc, hq]
  · intro rs l hd
    by_cases hrs : rs = espOk <;>
      simp [setEventHandlerCustom, sinkCount, hrs, he, hc, hq]
  · intro rs hd hrs
    simp [setEventHandlerDefault, sinkCount, hrs, he, hc, hq]
  · intro rs l hd hrs
    simp [setEventHandlerCustom, sinkCount, hrs, he, hc, hq]

/-- C4 witness: replacing an active queue sink by another queue sink leaves
exactly one sink active. -/
theorem C4_exactly_one_sink_after_setter_witness :
    sinkCount
      (setQueueHandle (setQueueHandle (initInput 5 false 5) (some 9)).1
        (some 11)).1.interrupt_args = 1 :=
  (C4_exactly_one_sink_after_setter (setQueueHandle (initInput 5 false 5) (some 9)).1
    (by decide)).1 (some 11)

/-- C5 (amended): enableInterrupt never changes the pin object's state, so
on failure the routing configuration is untouched, while a routing setter
that fails leaves the pin unrouted — zero sinks and a null queue handle —
whether or not a sink was active before. -/
theorem C5_failed_call_leaves_unrouted (env : PlatformEnv) (installed : Bool)
    (s : GpioInputState) (t : GpioIntType) (h : sinkCount s.interrupt_args ≤ 1) :
    (enableInterrupt env installed s t).state = s ∧
    (∀ rs hd, rs ≠ espOk →
      sinkCount (setEventHandlerDefault rs s hd).state.interrupt_args = 0 ∧
      (setEventHandlerDefault rs s hd).state.interrupt_args.queue_handle = none) ∧
    (∀ rs l hd, rs ≠ espOk →
      sinkCount (setEventHandlerCustom rs s l hd).state.interrupt_args = 0 ∧
      (setEventHandlerCustom rs s l hd).state.interrupt_args.queue_handle = none) := by
  obtain ⟨he, hc, hq, hqh⟩ := clear_zeros_of_le_one s h
  refine ⟨rfl, ?_, ?_⟩
  · intro rs hd hrs
    constructor <;>
      simp [setEventHandlerDefault, sinkCount, hrs, he, hc, hq, hqh]
  · intro rs l hd hrs
    constructor <;>
      simp [setEventHandlerCustom, sinkCount, hrs, he, hc, hq, hqh]

/-- C5 witness: a concrete failing default-loop setter on a queue-routed pin
leaves zero sinks, and a concrete enableInterrupt leaves the state as it
was. -/
theorem C5_failed_call_leaves_unrouted_witness :
    (enableInterrupt ⟨espOk, espOk, espOk⟩ false (initInput 5 false 5)
        GpioIntType.posedge).state = initInput 5 false 5 :=
  (C5_failed_call_leaves_unrouted ⟨espOk, espOk, espOk⟩ false (initInput 5 false 5)
    GpioIntType.posedge (by decide)).1

/-- Helper: successful installs recorded by one enableInterrupt call — one
when the flag was unset and the platform install returned `ESP_OK`, zero
otherwise. -/
theorem installCount_step (env : PlatformEnv) (installed : Bool)
    (s : GpioInputState) (t : GpioIntType) :
    ((enableInterrupt env installed s t).calls.filter isSuccessfulInstall).length =
      if installed then 0 else if env.installStatus = espOk then 1 else 0 := by
  cases installed <;>
    by_cases h1 : env.installStatus = espOk <;>
    by_cases h2 : env.setIntrStatus = espOk <;>
    by_cases h3 : env.isrAddStatus = espOk <;>
    simp_all [enableInterrupt, isSuccessfulInstall]

/-- Helper: the process-wide flag after one enableInterrupt call — set when
it was already set or the install attempt returned `ESP_OK`. -/
theorem installFlag_step (env : PlatformEnv) (installed : Bool)
    (s : GpioInputState) (t : GpioIntType) :
    (enableInterrupt env installed s t).installed =
      (installed || decide (env.installStatus = espOk)) := by
  cases installed <;> by_cases h1 : env.installStatus = espOk <;>
    simp_all [enableInterrupt]

/-- Helper: with the flag already set, a sequence of enableInterrupt calls
performs no successful install. -/
theorem runEnableSeq_true_no_installs
    (seq : List (PlatformEnv × GpioInputState × GpioIntType)) :
    countSuccessfulInstalls (runEnableSeq true seq).2 = 0 := by
  induction seq with
  | nil => rfl
  | cons hd tl ih =>
    obtain ⟨env, s, t⟩ := hd
    have h1 := installCount_step env true s t
    have h2 := installFlag_step env true s t
    simp only [Bool.true_or] at h2
    simp [runEnableSeq, countSuccessfulInstalls, h1, h2, ih]

/-- Helper: starting with the flag unset, a sequence of enableInterrupt
calls performs at most one successful install. -/
theorem runEnableSeq_false_le_one
    (seq : List (PlatformEnv × GpioInputState × GpioIntType)) :
    countSuccessfulInstalls (runEnableSeq false seq).2 ≤ 1 := by
  induction seq with
  | nil => simp [runEnableSeq, countSuccessfulInstalls]
  | cons hd tl ih =>
    obtain ⟨env, s, t⟩ := hd
    have h1 := installCount_step env false s t
    have h2 := installFlag_step env false s t
    simp only [Bool.false_or] at h2
    by_cases hok : env.installStatus = espOk
    · simp only [hok, if_true, if_false, decide_eq_true_eq] at h1 h2 ⊢
      simp [runEnableSeq, countSuccessfulInstalls, h1,
        if_pos hok, h2, hok, runEnableSeq_true_no_installs tl]
    · simp only [hok, decide_eq_true_eq] at h1 h2 ⊢
      simp [runEnableSeq, countSuccessfulInstalls, h1, if_neg hok, h2, hok, ih]

/-- C7: a sequence of enableInterrupt calls starting with the process-wide
flag unset installs the shared service at most once; an install is
attempted by a call exactly when the flag is unset at its entry; the flag
becomes true exactly when it already was or the attempt succeeded (so it
is never reset); and a call entered with the flag set skips installation
and still proceeds to program the pin's trigger. -/
theorem C7_service_installed_at_most_once :
    (∀ seq, countSuccessfulInstalls (runEnableSeq false seq).2 ≤ 1) ∧
    (∀ env installed s t,
      hasInstallCall (enableInterrupt env installed s t).calls = !installed) ∧
    (∀ env installed s t,
      (enableInterrupt env installed s t).installed =
        (installed || decide (env.installStatus = espOk))) ∧
    (∀ env s t,
      HwCall.setIntrType s.pin (applyActiveLowInversion s.active_low t)
        env.setIntrStatus ∈ (enableInterrupt env true s t).calls) := by
  refine ⟨runEnableSeq_false_le_one, ?_, installFlag_step, ?_⟩
  · intro env installed s t
    cases installed <;>
      by_cases h1 : env.installStatus = espOk <;>
      by_cases h2 : env.setIntrStatus = espOk <;>
      by_cases h3 : env.isrAddStatus = espOk <;>
      simp_all [enableInterrupt, hasInstallCall]
  · intro env s t
    by_cases h2 : env.setIntrStatus = espOk <;>
      simp [enableInterrupt, h2]

/-- C8: the trigger type enableInterrupt hands to `gpio_set_intr_type` is
always the active-low inversion of the requested type (and it is handed
over whenever the shared service is or becomes available); rising and
falling edges swap for an active-low pin, high and low levels swap, other
types pass through, and a non-active-low pin's type is unchanged. -/
theorem C8_polarity_inversion (env : PlatformEnv) (installed : Bool)
    (s : GpioInputState) (t : GpioIntType) :
    (∀ p ty r,
      HwCall.setIntrType p ty r ∈ (enableInterrupt env installed s t).calls →
      p = s.pin ∧ ty = applyActiveLowInversion s.active_low t) ∧
    ((installed = true ∨ env.installStatus = espOk) →
      HwCall.setIntrType s.pin (applyActiveLowInversion s.active_low t)
        env.setIntrStatus ∈ (enableInterrupt env installed s t).calls) ∧
    applyActiveLowInversion true GpioIntType.posedge = GpioIntType.negedge ∧
    applyActiveLowInversion true GpioIntType.negedge = GpioIntType.posedge ∧
    applyActiveLowInversion true GpioIntType.highLevel = GpioIntType.lowLevel ∧
    applyActiveLowInversion true GpioIntType.lowLevel = GpioIntType.highLevel ∧
    applyActiveLowInversion true GpioIntType.disable = GpioIntType.disable ∧
    applyActiveLowInversion true GpioIntType.anyedge = GpioIntType.anyedge ∧
    (∀ ty, applyActiveLowInversion false ty = ty) := by
  refine ⟨?_, ?_, rfl, rfl, rfl, rfl, rfl, rfl, fun ty => rfl⟩
  · intro p ty r hmem
    cases installed <;>
      by_cases h1 : env.installStatus = espOk <;>
      by_cases h2 : env.setIntrStatus = espOk <;>
      by_cases h3 : env.isrAddStatus = espOk <;>
      simp_all [enableInterrupt]
  · intro hpre
    rcases hpre with hinst | hok
    · subst hinst
      by_cases h2 : env.setIntrStatus = espOk <;>
        simp [enableInterrupt, h2]
    · cases installed <;>
        by_cases h2 : env.setIntrStatus = espOk <;>
        simp [enableInterrupt, hok, h2]

end ESP32Gpio
